import Mathlib

/-!
Shallow embedding of the MHD BA Home Assistant integration
(`const.py`, `helpers.py`, `config_flow.py`, `coordinator.py`, `sensor.py`).

Python dictionaries coming from JSON are modelled as structures whose
fields are `Option`-typed (a `none` field is an absent key).  Python
truthiness on such values (`if not x`) is modelled explicitly: `None`,
`0`, `""` and `[]` are falsy.  Machine integers are `Int` (Python ints
are unbounded).  Strings are Lean `String`s; where the source pipes a
string through `str.replace`, the embedding works on the underlying
character list.  Fallible code returns `Except`.
-/

/-- Modelled from the spec: `const.py` in the provided sources lacks the
direction constants that `sensor.py`, `helpers.py` and `__init__.py` pull
in (`DIRECTION_ALL`, `DIRECTION_HERE`, `CONF_DIRECTION`,
`DEFAULT_DIRECTION`).  The direction enum of the spec is {ALL, HERE, THERE}
with the upstream tag literal "here"; the values are inferred
accordingly.  Only their distinctness matters to the logic. -/
def DIRECTION_ALL : String := "all"

/-- Modelled from the spec: see `DIRECTION_ALL`. -/
def DIRECTION_HERE : String := "here"

/-- Modelled from the spec: see `DIRECTION_ALL`. -/
def DIRECTION_THERE : String := "there"

/-- Modelled from the spec: the default direction is ALL. -/
def DEFAULT_DIRECTION : String := DIRECTION_ALL

/-- Embeds the `timeTableLine` object inside a departure record. -/
structure TimeTableLine where
  line : Option String
  deriving Repr, DecidableEq

/-- Embeds the `timeTableTrip` object inside a departure record. -/
structure TimeTableTrip where
  timeTableLine : Option TimeTableLine
  destinationStopName : Option String
  ezTripDirection : Option String
  deriving Repr, DecidableEq

/-- Embeds one raw departure record as returned by the departures endpoint. -/
structure RawDeparture where
  timeTableTrip : Option TimeTableTrip
  plannedDepartureTimestamp : Option Int
  delayMinutes : Option Int
  platformNumber : Option String
  deriving Repr, DecidableEq

/-- Embeds `departure.get("timeTableTrip", {}).get("timeTableLine", {}).get("line")`:
the line identifier without a default. -/
def lineOpt (d : RawDeparture) : Option String :=
  match d.timeTableTrip with
  | none => none
  | some t =>
    match t.timeTableLine with
    | none => none
    | some l => l.line

/-- Embeds the same lookup with the `"Unknown"` default used by the view code. -/
def lineOrUnknown (d : RawDeparture) : String :=
  match d.timeTableTrip with
  | none => "Unknown"
  | some t =>
    match t.timeTableLine with
    | none => "Unknown"
    | some l => l.line.getD "Unknown"

/-- Embeds `departure.get("timeTableTrip", {}).get("destinationStopName", "Unknown")`. -/
def destOrUnknown (d : RawDeparture) : String :=
  match d.timeTableTrip with
  | none => "Unknown"
  | some t => t.destinationStopName.getD "Unknown"

/-- Embeds `departure.get("timeTableTrip", {}).get("ezTripDirection")`. -/
def tagOpt (d : RawDeparture) : Option String :=
  match d.timeTableTrip with
  | none => none
  | some t => t.ezTripDirection

/-- Embeds the direction half of `_should_include_departure` (the code after
the line-filter check in sensor.py). -/
def direction_filter_check (direction : String) (d : RawDeparture) : Bool :=
  if direction = DIRECTION_ALL then true
  else if direction = DIRECTION_HERE ∧ tagOpt d ≠ some "here" then false
  else if direction ≠ DIRECTION_HERE ∧ tagOpt d = some "here" then false
  else true

/-- Embeds `MhdBaDeparturesSensor._should_include_departure` (sensor.py).
The Python truthiness test `if not line or line not in self._filter_lines`
treats both an absent line and an empty-string line as non-matching. -/
def should_include_departure (filter_lines : List String) (direction : String)
    (d : RawDeparture) : Bool :=
  if filter_lines.isEmpty then
    direction_filter_check direction d
  else
    match lineOpt d with
    | none => false
    | some l =>
      if l = "" then false
      else if l ∈ filter_lines then direction_filter_check direction d
      else false

/-- Embeds the snapshot dictionary built by
`MhdBaDataUpdateCoordinator._async_update_data`: every successful refresh
produces a dict with exactly these four keys. -/
structure Snapshot where
  departures : List RawDeparture
  stop_name : Option String
  stopping_lines : List String
  last_update : String
  deriving Repr, DecidableEq

/-- Embeds the per-sensor settings: `_filter_lines`, `_direction` and
`_max_departures` on `MhdBaDeparturesSensor` (direction also lives on the
coordinator; both copies come from the same config-entry value).
`max_departures` is a `Nat` because the config flow validates it with
`vol.Range(min=1, max=1000)`. -/
structure SensorConfig where
  filter_lines : List String
  direction : String
  max_departures : Nat
  deriving Repr, DecidableEq

/-- Embeds `_calculate_departure_time` (sensor.py): planned timestamp in
seconds plus delay in minutes times 60. -/
def calculate_departure_time (planned_timestamp delay_minutes : Int) : Int :=
  planned_timestamp + delay_minutes * 60

/-- Embeds `_calculate_time_until_departure` (sensor.py) at a given current
timestamp `now` (the source reads `dt_util.utcnow().timestamp()`). -/
def calculate_time_until_departure (departure_calculated now : Int) : Int :=
  departure_calculated - now

/-- Embeds the list comprehension shared by `native_value` and
`extra_state_attributes`: the snapshot departures that pass
`_should_include_departure`. -/
def filteredDepartures (cfg : SensorConfig) (snap : Snapshot) : List RawDeparture :=
  snap.departures.filter (should_include_departure cfg.filter_lines cfg.direction)

/-- Embeds `MhdBaDeparturesSensor.native_value` (sensor.py), parameterised by
the current unix timestamp `now`.  `data` is `coordinator.data`, which is
`None` before the first successful refresh.  The guard
`if not planned_timestamp` follows Python truthiness: an absent key and the
value `0` both take the timing-free branch. -/
def native_value (cfg : SensorConfig) (data : Option Snapshot) (now : Int) :
    Option String :=
  match data with
  | none => none
  | some snap =>
    match filteredDepartures cfg snap with
    | [] => none
    | d :: _ =>
      let line := lineOrUnknown d
      let destination := destOrUnknown d
      match d.plannedDepartureTimestamp with
      | none => some (line ++ " -> " ++ destination)
      | some p =>
        if p = 0 then some (line ++ " -> " ++ destination)
        else
          let delay := d.delayMinutes.getD 0
          let departure_calculated := calculate_departure_time p delay
          let t := calculate_time_until_departure departure_calculated now
          let minutes : Int := if t ≤ 0 then 0 else Int.tdiv t 60
          some (line ++ " -> " ++ destination ++ " in " ++ toString minutes ++ " min")

/-- Decimal digit character, used to embed `strftime` zero-padded fields.
Defined on the residue so that the result is always a digit between 0 and 9. -/
def decimalDigit (n : Nat) : Char :=
  match n % 10 with
  | 0 => '0'
  | 1 => '1'
  | 2 => '2'
  | 3 => '3'
  | 4 => '4'
  | 5 => '5'
  | 6 => '6'
  | 7 => '7'
  | 8 => '8'
  | _ => '9'

/-- Embeds a two-digit zero-padded decimal field (`%H`, `%M`, `%d`, `%m`);
faithful to `strftime` for the clock/calendar ranges these fields take. -/
def pad2 (n : Nat) : List Char :=
  [decimalDigit (n / 10), decimalDigit n]

/-- Embeds the four-digit zero-padded year field `%Y` (faithful for years
below 10000, i.e. every representable `datetime`). -/
def pad4 (n : Nat) : List Char :=
  [decimalDigit (n / 1000), decimalDigit (n / 100), decimalDigit (n / 10),
    decimalDigit n]

/-- Embeds formatting a unix timestamp to local `"%H:%M"`
(`dt_util.as_local(datetime.fromtimestamp(ts, UTC)).strftime("%H:%M")`),
for a fixed local UTC offset `tz` in seconds. -/
def fmtHM (tz ts : Int) : String :=
  let localSeconds := ((ts + tz).emod 86400).toNat
  String.mk (pad2 (localSeconds / 3600) ++ ':' :: pad2 (localSeconds % 3600 / 60))

/-- Embeds one entry of the `departures` attribute list built by
`extra_state_attributes` (sensor.py).  Field names keep the spelling used by the source, including the misspelt `planed_departure` and
`departute_calculated`. -/
structure DetailEntry where
  line : String
  planed_departure : Option Int
  planed_departure_formatted : Option String
  delay : Int
  departute_calculated : Option Int
  calculated_departure_formatted : Option String
  seconds_until_departure : Option Int
  minutes_until_departure : Option Int
  destination : String
  platform : Option String
  direction : Option String
  deriving Repr, DecidableEq

/-- Embeds the body of the per-departure loop in `extra_state_attributes`
(sensor.py).  `departure_calculated` and the time-until value are computed
only under `if planned_timestamp:` (truthiness, so a planned timestamp of
`0` leaves them `None`); the formatted/seconds/minutes fields additionally
test the truthiness of `departure_calculated` and of the time-until value
themselves. -/
def projectDetail (now tz : Int) (d : RawDeparture) : DetailEntry :=
  let planned := d.plannedDepartureTimestamp
  let delay := d.delayMinutes.getD 0
  let departure_calculated : Option Int :=
    match planned with
    | none => none
    | some p => if p = 0 then none else some (calculate_departure_time p delay)
  let time_until : Option Int :=
    departure_calculated.map (fun c => calculate_time_until_departure c now)
  { line := lineOrUnknown d
    planed_departure := planned
    planed_departure_formatted :=
      match planned with
      | none => none
      | some p => if p = 0 then none else some (fmtHM tz p)
    delay := delay
    departute_calculated := departure_calculated
    calculated_departure_formatted :=
      match departure_calculated with
      | none => none
      | some c => if c = 0 then none else some (fmtHM tz c)
    seconds_until_departure :=
      match departure_calculated with
      | none => none
      | some c => if c = 0 then none else time_until
    minutes_until_departure :=
      match departure_calculated, time_until with
      | some c, some t => if c = 0 ∨ t = 0 then none else some (Int.tdiv t 60)
      | _, _ => none
    destination := destOrUnknown d
    platform := d.platformNumber
    direction := tagOpt d }

/-- Embeds the attribute bag returned by `extra_state_attributes` (sensor.py). -/
structure Attributes where
  last_update : String
  departures : List DetailEntry
  stop_name : Option String
  stopping_lines : List String
  max_departures : Nat
  filter_lines : List String
  direction : String
  deriving Repr, DecidableEq

/-- Embeds `MhdBaDeparturesSensor.extra_state_attributes` (sensor.py) on a
present snapshot (`coordinator.data` is a dict).  The truthiness guard
`if self.coordinator.data.get("stop_name"):` leaves the attribute `None`
for an absent or empty stop name; the `stopping_lines` guard is a no-op
because its default is the empty list.  The `direction` attribute reads
`self.coordinator.direction`, which carries the same config-entry value as
the direction stored on the sensor. -/
def extra_state_attributes (cfg : SensorConfig) (snap : Snapshot) (now tz : Int) :
    Attributes :=
  { last_update := snap.last_update
    departures :=
      ((filteredDepartures cfg snap).take cfg.max_departures).map (projectDetail now tz)
    stop_name :=
      match snap.stop_name with
      | none => none
      | some s => if s = "" then none else some s
    stopping_lines := snap.stopping_lines
    max_departures := cfg.max_departures
    filter_lines := cfg.filter_lines
    direction := cfg.direction }

/-- Embeds one entry of the `stops` array of the stop-info endpoint.
The coordinator reads `stopName` and `ezLines`; the validation code in
`config_flow.py` reads `stopID`. -/
structure StopEntry where
  stopID : Option String
  stopName : Option String
  ezLines : Option (List String)
  deriving Repr, DecidableEq

/-- Embeds the JSON body of the stop-info endpoint. -/
structure StopInfoBody where
  status : Option String
  stops : Option (List StopEntry)
  deriving Repr, DecidableEq

/-- Embeds the JSON body of the departures endpoint: the only field the
coordinator looks at is `departures`, which may be absent. -/
structure DeparturesBody where
  departures : Option (List RawDeparture)
  deriving Repr, DecidableEq

/-- Embeds the outcome of one HTTP exchange as seen by the coordinator:
either the network layer raised `aiohttp.ClientError`, or a response with a
status code and a parsed JSON body arrived. -/
inductive HttpResult (β : Type) where
  | clientError
  | response (status : Nat) (body : β)
  deriving Repr, DecidableEq

/-- Embeds the mutable fields of `MhdBaDataUpdateCoordinator` together with
the published `data` attribute of the host `DataUpdateCoordinator`.
The `direction` field is modelled from the spec: the provided
`coordinator.py` lacks the direction attribute that `__init__.py` passes
and `sensor.py` reads, so it is carried here as the config-entry value. -/
structure CoordinatorState where
  stop_id : String
  direction : String
  stop_name : Option String
  stopping_lines : List String
  last_update : String
  data : Option Snapshot
  deriving Repr, DecidableEq

/-- Embeds `MhdBaDataUpdateCoordinator._fetch_stop_info` (coordinator.py).
It swallows `aiohttp.ClientError`, returns without change on a non-200
status or on a body whose `status` is not `"ok"` or whose `stops` list is
falsy (absent or empty), and otherwise copies `stopName` and `ezLines`
(defaulting to `[]`) from the first stop entry.  It never consults the `stopID` field of the entry. -/
def fetch_stop_info (st : CoordinatorState) (resp : HttpResult StopInfoBody) :
    CoordinatorState :=
  match resp with
  | .clientError => st
  | .response status body =>
    if status ≠ 200 then st
    else if body.status ≠ some "ok" then st
    else
      match body.stops with
      | none => st
      | some [] => st
      | some (stop_data :: _) =>
        { st with
          stop_name := stop_data.stopName
          stopping_lines := stop_data.ezLines.getD [] }

/-- Embeds the error-kind taxonomy for the departures fetch (spec section 7):
connectivity errors are `aiohttp.ClientError` escapes, `invalidStatus`
embeds the `UpdateFailed` raised on a non-200 status, and
`malformedResponse` embeds the failure on a body with no `departures`
field.  On that last path the source executes `return {[]}`, a set display
holding an unhashable list, which raises `TypeError` at runtime; the
raised error propagates (only `aiohttp.ClientError` is caught upstream),
so the path is a fetch failure, modelled with the MalformedResponseError kind from the spec. -/
inductive FetchError where
  | connectivity
  | invalidStatus (status : Nat)
  | malformedResponse
  deriving Repr, DecidableEq

/-- Embeds `MhdBaDataUpdateCoordinator._fetch_departures` (coordinator.py),
with `now_str` standing for `dt_util.now().strftime("%d.%m.%Y %H:%M:%S")`.
On success it sets `self.last_update` and returns the `departures` field
verbatim; every other path is a raised exception, modelled as `.error`
(see `FetchError` for the missing-field path). -/
def fetch_departures (st : CoordinatorState) (resp : HttpResult DeparturesBody)
    (now_str : String) : Except FetchError (CoordinatorState × List RawDeparture) :=
  match resp with
  | .clientError => .error .connectivity
  | .response status body =>
    if status ≠ 200 then .error (.invalidStatus status)
    else
      match body.departures with
      | none => .error .malformedResponse
      | some ds => .ok ({ st with last_update := now_str }, ds)

/-- Embeds `MhdBaDataUpdateCoordinator._async_update_data` (coordinator.py):
fetch stop info first if the stop name is still unset, then fetch
departures; on success assemble the snapshot dict from the instance
fields.  `aiohttp.ClientError` from the departures fetch is re-raised as
`UpdateFailed`; both are failures here. -/
def async_update_data (st : CoordinatorState)
    (stopResp : HttpResult StopInfoBody) (depResp : HttpResult DeparturesBody)
    (now_str : String) : Except FetchError (CoordinatorState × Snapshot) :=
  let st1 := if st.stop_name = none then fetch_stop_info st stopResp else st
  match fetch_departures st1 depResp now_str with
  | .error e => .error e
  | .ok (st2, ds) =>
    .ok (st2,
      { departures := ds
        stop_name := st2.stop_name
        stopping_lines := st2.stopping_lines
        last_update := st2.last_update })

/-- Modelled from the spec: the refresh loop of the host framework
(`DataUpdateCoordinator`, outside this repository) runs
`_async_update_data`; on success it publishes the returned snapshot as
`coordinator.data`, and on any raised error it records the failure and
leaves the previously published `data` in place for readers
(spec section 4.5). -/
def coordinator_refresh (st : CoordinatorState)
    (stopResp : HttpResult StopInfoBody) (depResp : HttpResult DeparturesBody)
    (now_str : String) : CoordinatorState :=
  match async_update_data st stopResp depResp now_str with
  | .error _ =>
    -- instance-field mutations made before the raise persist; `data` does not change
    let st1 := if st.stop_name = none then fetch_stop_info st stopResp else st
    st1
  | .ok (st2, snap) => { st2 with data := some snap }

/-- Embeds the Python expression `sep.join(parts)`. -/
def pyJoin (sep : String) : List String → String
  | [] => ""
  | [p] => p
  | p :: ps => p ++ sep ++ pyJoin sep ps

/-- Embeds the Python string comparison `<=` restricted to character lists:
lexicographic by code point. -/
def listCharLe : List Char → List Char → Bool
  | [], _ => true
  | _ :: _, [] => false
  | a :: as, b :: bs =>
    if a < b then true
    else if b < a then false
    else listCharLe as bs

/-- Embeds the Python string comparison `<=`: lexicographic by code point. -/
def pyStrLe (a b : String) : Bool :=
  listCharLe a.data b.data

/-- Insert a string into a list kept in ascending `pyStrLe` order. -/
def pyInsort (x : String) : List String → List String
  | [] => [x]
  | y :: ys => if pyStrLe x y then x :: y :: ys else y :: pyInsort x ys

/-- Embeds the Python builtin `sorted` on a list of strings: the unique ascending
(lexicographic by code point) reordering, here computed by insertion
sort. -/
def pySorted : List String → List String
  | [] => []
  | x :: xs => pyInsort x (pySorted xs)

/-- Embeds `generate_unique_id` from helpers.py (the three-argument variant):
stop id, then the sorted filter lines hyphen-joined when non-empty, then
the direction when it is not ALL, all underscore-joined. -/
def generate_unique_id (stop_id : String) (filter_lines : List String)
    (direction : String) : String :=
  let parts1 : List String := [stop_id]
  let parts2 := if filter_lines.isEmpty then parts1
    else parts1 ++ [pyJoin "-" (pySorted filter_lines)]
  let parts3 := if direction ≠ DIRECTION_ALL then parts2 ++ [direction] else parts2
  pyJoin "_" parts3

/-- Embeds `generate_unique_id` from config_flow.py (the two-argument
variant used when creating a config entry): no direction suffix. -/
def generate_unique_id_config_flow (stop_id : String)
    (filter_lines : List String) : String :=
  if filter_lines.isEmpty then stop_id
  else stop_id ++ "_" ++ pyJoin "-" (pySorted filter_lines)

/-- Embeds the Python method `str.replace(old, new)` for a single-character pattern
(every `replace` in `_fetch_departures` has a one-character pattern),
acting on the character list. -/
def replaceChar (c : Char) (repl : List Char) : List Char → List Char
  | [] => []
  | x :: xs =>
    if x = c then repl ++ replaceChar c repl xs
    else x :: replaceChar c repl xs

/-- Embeds the UTC offset of the local timezone as `strftime("%z")` renders
it: a sign, two hour digits, two minute digits, no colon. -/
structure TzOffset where
  negative : Bool
  hours : Nat
  minutes : Nat
  deriving Repr, DecidableEq

/-- Embeds a local wall-clock datetime (`dt_util.now()`), carrying exactly
the fields the request formatter reads. -/
structure LocalDateTime where
  year : Nat
  month : Nat
  day : Nat
  hour : Nat
  minute : Nat
  offset : TzOffset
  deriving Repr, DecidableEq

/-- Embeds `now.strftime("%Y-%m-%d+%H:%M")` as a character list. -/
def strftimeMain (dt : LocalDateTime) : List Char :=
  pad4 dt.year ++ '-' :: pad2 dt.month ++ '-' :: pad2 dt.day ++
    '+' :: pad2 dt.hour ++ ':' :: pad2 dt.minute

/-- Embeds `now.strftime("%z")` as a character list. -/
def strftimeZ (off : TzOffset) : List Char :=
  (if off.negative then '-' else '+') :: pad2 off.hours ++ pad2 off.minutes

/-- Embeds the `formatted_date` expression of `_fetch_departures`
(coordinator.py): `strftime("%Y-%m-%d+%H:%M").replace(":", "%3A")`
concatenated with `strftime("%z").replace(":", "").replace("+", "%2B")`. -/
def formatted_date (dt : LocalDateTime) : List Char :=
  replaceChar ':' "%3A".data (strftimeMain dt) ++
    replaceChar '+' "%2B".data (replaceChar ':' [] (strftimeZ dt.offset))

/-- Follows the words of claim C2 (not the source): a departure is included
iff (1) filterLines is empty, or its line is present and a member of
filterLines, and (2) direction is ALL, or direction is HERE and the tag
equals "here", or direction is neither HERE nor ALL and the tag is not
"here". -/
def shouldIncludeSpec (filter_lines : List String) (direction : String)
    (d : RawDeparture) : Prop :=
  (filter_lines = [] ∨ ∃ l, lineOpt d = some l ∧ l ∈ filter_lines) ∧
  (direction = DIRECTION_ALL ∨
    (direction = DIRECTION_HERE ∧ tagOpt d = some "here") ∨
    (direction ≠ DIRECTION_HERE ∧ direction ≠ DIRECTION_ALL ∧
      tagOpt d ≠ some "here"))

/-- Follows the words of claim C3 (not the source): headline unset when
nothing passes the filter; `"line -> destination"` when the first filtered
departure has no planned timestamp; otherwise
`"line -> destination in N min"` with N = floor((planned + delay*60 -
now)/60), clamped to 0 when the calculated time is at or before now. -/
def headlineSpec (cfg : SensorConfig) (snap : Snapshot) (now : Int) :
    Option String :=
  match filteredDepartures cfg snap with
  | [] => none
  | d :: _ =>
    let line := lineOrUnknown d
    let destination := destOrUnknown d
    match d.plannedDepartureTimestamp with
    | none => some (line ++ " -> " ++ destination)
    | some p =>
      let calcTs := calculate_departure_time p (d.delayMinutes.getD 0)
      let n : Int := if calcTs ≤ now then 0 else Int.fdiv (calcTs - now) 60
      some (line ++ " -> " ++ destination ++ " in " ++ toString n ++ " min")

/-- Names the acceptance condition of `fetch_stop_info` (coordinator.py):
status 200, body status `"ok"`, and a truthy (non-empty) stop list. -/
def stopInfoAccepted (resp : HttpResult StopInfoBody) : Bool :=
  match resp with
  | .clientError => false
  | .response status body =>
    status = 200 ∧ body.status = some "ok" ∧ ¬(body.stops.getD []).isEmpty

/-- The first entry of the stop list of a stop-info response, if any. -/
def firstStop (resp : HttpResult StopInfoBody) : Option StopEntry :=
  match resp with
  | .clientError => none
  | .response _ body => (body.stops.getD []).head?

def depCentrum : RawDeparture :=
  { timeTableTrip := some
      { timeTableLine := some { line := some "21" }
        destinationStopName := some "Centrum"
        ezTripDirection := none }
    plannedDepartureTimestamp := some 300
    delayMinutes := some 0
    platformNumber := none }

/-- The ascending order used by `pySorted`, as a binary relation. -/
def strLeRel (a b : String) : Prop := pyStrLe a b = true

/-- A departure whose line field is present but the empty string. -/
def depEmptyLine : RawDeparture :=
  { timeTableTrip := some
      { timeTableLine := some { line := some "" }
        destinationStopName := some "Centrum"
        ezTripDirection := none }
    plannedDepartureTimestamp := none
    delayMinutes := none
    platformNumber := none }

/-- Config with no line filter, direction ALL, max 10. -/
def cfgAll : SensorConfig := ⟨[], DIRECTION_ALL, 10⟩

/-- A departure with line "21", destination "X" and planned timestamp 0. -/
def depZeroPlanned : RawDeparture :=
  { timeTableTrip := some
      { timeTableLine := some { line := some "21" }
        destinationStopName := some "X"
        ezTripDirection := none }
    plannedDepartureTimestamp := some 0
    delayMinutes := none
    platformNumber := none }

/-- Snapshot holding only `depZeroPlanned`. -/
def snapZeroPlanned : Snapshot := ⟨[depZeroPlanned], none, [], ""⟩

/-- A departure whose calculated time (30) lies in the past relative to the
instants used below. -/
def depPast : RawDeparture :=
  { timeTableTrip := none
    plannedDepartureTimestamp := some 30
    delayMinutes := none
    platformNumber := none }

/-- A departure on line "21" to destination "C" planned at time `n`. -/
def depN (n : Int) : RawDeparture :=
  { timeTableTrip := some
      { timeTableLine := some { line := some "21" }
        destinationStopName := some "C"
        ezTripDirection := none }
    plannedDepartureTimestamp := some n
    delayMinutes := some 0
    platformNumber := none }

/-- Config with maxDepartures = 2, no filter, direction ALL. -/
def cfg2 : SensorConfig := ⟨[], DIRECTION_ALL, 2⟩

/-- Snapshot with five departures that all pass the empty filter. -/
def snap5 : Snapshot :=
  ⟨[depN 60, depN 120, depN 180, depN 240, depN 300], none, [], ""⟩

/-- Coordinator state for stop id "5" with no metadata yet. -/
def stMismatch : CoordinatorState :=
  ⟨"5", "all", none, [], "", none⟩

/-- A stop-info response whose only stop entry carries stopID "999". -/
def respMismatch : HttpResult StopInfoBody :=
  .response 200 ⟨some "ok", some [⟨some "999", some "Foo", some ["1"]⟩]⟩

/-- A snapshot published by an earlier successful refresh. -/
def snapPrev : Snapshot := ⟨[depCentrum], some "N", ["1"], "prev"⟩

/-- Coordinator state holding `snapPrev` as its published data. -/
def stPrev : CoordinatorState := ⟨"5", "all", some "N", ["1"], "prev", some snapPrev⟩

theorem listCharLe_total (a b : List Char) :
    listCharLe a b = true ∨ listCharLe b a = true := by
  induction a generalizing b with
  | nil => left; rfl
  | cons x xs ih =>
    cases b with
    | nil => right; rfl
    | cons y ys =>
      rcases lt_trichotomy x y with h | h | h
      · left; simp [listCharLe, h]
      · subst h
        rcases ih ys with h2 | h2
        · left; simp [listCharLe, lt_irrefl, h2]
        · right; simp [listCharLe, lt_irrefl, h2]
      · right; simp [listCharLe, h]

theorem listCharLe_trans (a b c : List Char) (h1 : listCharLe a b = true)
    (h2 : listCharLe b c = true) : listCharLe a c = true := by
  induction a generalizing b c with
  | nil => rfl
  | cons x xs ih =>
    cases b with
    | nil => simp [listCharLe] at h1
    | cons y ys =>
      cases c with
      | nil => simp [listCharLe] at h2
      | cons z zs =>
        rcases lt_trichotomy x y with hxy | hxy | hxy
        · rcases lt_trichotomy y z with hyz | hyz | hyz
          · simp [listCharLe, lt_trans hxy hyz]
          · subst hyz; simp [listCharLe, hxy]
          · simp [listCharLe, hyz, lt_asymm hyz] at h2
        · subst hxy
          rcases lt_trichotomy x z with hyz | hyz | hyz
          · simp [listCharLe, hyz]
          · subst hyz
            simp [listCharLe, lt_irrefl] at h1 h2 ⊢
            exact ih ys zs h1 h2
          · simp [listCharLe, hyz, lt_asymm hyz] at h2
        · simp [listCharLe, hxy, lt_asymm hxy] at h1

theorem listCharLe_antisymm (a b : List Char) (h1 : listCharLe a b = true)
    (h2 : listCharLe b a = true) : a = b := by
  induction a generalizing b with
  | nil =>
    cases b with
    | nil => rfl
    | cons y ys => simp [listCharLe] at h2
  | cons x xs ih =>
    cases b with
    | nil => simp [listCharLe] at h1
    | cons y ys =>
      rcases lt_trichotomy x y with hxy | hxy | hxy
      · simp [listCharLe, hxy, lt_asymm hxy] at h2
      · subst hxy
        simp [listCharLe, lt_irrefl] at h1 h2
        exact congrArg (x :: ·) (ih ys h1 h2)
      · simp [listCharLe, hxy, lt_asymm hxy] at h1

theorem pyStrLe_total (a b : String) : pyStrLe a b = true ∨ pyStrLe b a = true :=
  listCharLe_total a.data b.data

theorem pyStrLe_trans (a b c : String) (h1 : pyStrLe a b = true)
    (h2 : pyStrLe b c = true) : pyStrLe a c = true :=
  listCharLe_trans a.data b.data c.data h1 h2

theorem pyStrLe_antisymm (a b : String) (h1 : pyStrLe a b = true)
    (h2 : pyStrLe b a = true) : a = b := by
  cases a; cases b
  exact congrArg String.mk (listCharLe_antisymm _ _ h1 h2)

theorem pyInsort_perm (x : String) (l : List String) :
    (pyInsort x l).Perm (x :: l) := by
  induction l with
  | nil => exact List.Perm.refl _
  | cons y ys ih =>
    by_cases h : pyStrLe x y = true
    · simp [pyInsort, h]
    · simp only [pyInsort, h, if_neg, Bool.not_eq_true]
      exact (ih.cons y).trans (List.Perm.swap x y ys)

theorem pySorted_perm (l : List String) : (pySorted l).Perm l := by
  induction l with
  | nil => exact List.Perm.refl _
  | cons x xs ih =>
    exact (pyInsort_perm x (pySorted xs)).trans (ih.cons x)

theorem pyInsort_sorted (x : String) (l : List String)
    (h : l.Sorted strLeRel) : (pyInsort x l).Sorted strLeRel := by
  induction l with
  | nil => simp [pyInsort, List.Sorted]
  | cons y ys ih =>
    rcases List.sorted_cons.mp h with ⟨hy, hys⟩
    by_cases hxy : pyStrLe x y = true
    · simp only [pyInsort, hxy, if_pos]
      refine List.sorted_cons.mpr ⟨?_, h⟩
      intro b hb
      rcases List.mem_cons.mp hb with hb | hb
      · subst hb; exact hxy
      · exact pyStrLe_trans x y b hxy (hy b hb)
    · simp only [pyInsort, hxy, if_neg, Bool.not_eq_true]
      refine List.sorted_cons.mpr ⟨?_, ih hys⟩
      intro b hb
      have hmem := (pyInsort_perm x ys).mem_iff.mp hb
      rcases List.mem_cons.mp hmem with hb2 | hb2
      · subst hb2
        rcases pyStrLe_total b y with ht | ht
        · exact absurd ht hxy
        · exact ht
      · exact hy b hb2

theorem pySorted_sorted (l : List String) : (pySorted l).Sorted strLeRel := by
  induction l with
  | nil => simp [pySorted, List.Sorted]
  | cons x xs ih => exact pyInsort_sorted x (pySorted xs) ih

theorem pySorted_eq_of_perm (l1 l2 : List String) (h : l1.Perm l2) :
    pySorted l1 = pySorted l2 := by
  haveI : IsAntisymm String strLeRel := ⟨pyStrLe_antisymm⟩
  exact List.eq_of_perm_of_sorted
    (((pySorted_perm l1).trans h).trans (pySorted_perm l2).symm)
    (pySorted_sorted l1) (pySorted_sorted l2)

/-- C8: for every stopId, filterLines list and direction, the derived
uniqueId (helpers.py `generate_unique_id`) equals stopId, suffixed (when
filterLines is non-empty) with the filterLines sorted ascending and
hyphen-joined, and further suffixed with the direction exactly when the
direction is not ALL; the result is invariant under permutation of
filterLines. -/
theorem c8_unique_id (stop_id : String) (filter_lines : List String)
    (direction : String) :
    (generate_unique_id stop_id filter_lines direction =
      stop_id ++
        (if filter_lines.isEmpty then ""
          else "_" ++ pyJoin "-" (pySorted filter_lines)) ++
        (if direction = DIRECTION_ALL then "" else "_" ++ direction)) ∧
    (pySorted filter_lines).Sorted strLeRel ∧
    (pySorted filter_lines).Perm filter_lines ∧
    (∀ fl2, fl2.Perm filter_lines →
      generate_unique_id stop_id fl2 direction =
        generate_unique_id stop_id filter_lines direction) := by
  refine ⟨?_, pySorted_sorted filter_lines, pySorted_perm filter_lines, ?_⟩
  · by_cases he : filter_lines.isEmpty <;> by_cases hd : direction = DIRECTION_ALL <;>
      simp [generate_unique_id, he, hd, pyJoin, String.append_empty,
        String.append_assoc]
  · intro fl2 hperm
    have hemp : fl2.isEmpty = filter_lines.isEmpty := by
      rcases fl2 with _ | ⟨a, as⟩ <;> rcases filter_lines with _ | ⟨b, bs⟩ <;>
        first
        | rfl
        | (exfalso; simpa using hperm.length_eq)
    unfold generate_unique_id
    rw [pySorted_eq_of_perm fl2 filter_lines hperm, hemp]

/-- C8 witness: a concrete instantiation, discharging the permutation
hypothesis at ["9", "21", "3"] against ["3", "9", "21"]: sorted ascending,
hyphen-joined, direction suffixed. -/
theorem c8_witness :
    generate_unique_id "stop1" ["9", "21", "3"] "here" = "stop1_21-3-9_here" ∧
    generate_unique_id "stop1" ["3", "9", "21"] "here" =
      generate_unique_id "stop1" ["9", "21", "3"] "here" := by
  constructor
  · decide
  · exact (c8_unique_id "stop1" ["9", "21", "3"] "here").2.2.2
      ["3", "9", "21"] (by decide)

theorem direction_filter_check_iff (dir : String) (d : RawDeparture) :
    direction_filter_check dir d = true ↔
      (dir = DIRECTION_ALL ∨
        (dir = DIRECTION_HERE ∧ tagOpt d = some "here") ∨
        (dir ≠ DIRECTION_HERE ∧ dir ≠ DIRECTION_ALL ∧ tagOpt d ≠ some "here")) := by
  by_cases h1 : dir = DIRECTION_ALL <;>
    by_cases h2 : dir = DIRECTION_HERE <;>
    by_cases h3 : tagOpt d = some "here" <;>
    simp [direction_filter_check, h1, h2, h3]

/-- C2 (amended): the filter includes a departure iff (1) filterLines is
empty, or the line is present, non-empty, and a member of filterLines
(the truthiness test in the source also rejects an empty-string line), and
(2) the direction condition of the claim holds. -/
theorem c2_should_include_characterization (fl : List String) (dir : String)
    (d : RawDeparture) :
    should_include_departure fl dir d = true ↔
      ((fl = [] ∨ ∃ l, lineOpt d = some l ∧ l ≠ "" ∧ l ∈ fl) ∧
        (dir = DIRECTION_ALL ∨
          (dir = DIRECTION_HERE ∧ tagOpt d = some "here") ∨
          (dir ≠ DIRECTION_HERE ∧ dir ≠ DIRECTION_ALL ∧
            tagOpt d ≠ some "here"))) := by
  rw [← direction_filter_check_iff dir d]
  by_cases he : fl.isEmpty
  · have : fl = [] := List.isEmpty_iff.mp he
    subst this
    simp [should_include_departure]
  · have hne : fl ≠ [] := by
      intro h; subst h; simp at he
    cases hl : lineOpt d with
    | none => simp [should_include_departure, he, hl, hne]
    | some l =>
      by_cases hll : l = ""
      · subst hll
        simp [should_include_departure, he, hl, hne]
      · by_cases hmem : l ∈ fl
        · simp [should_include_departure, he, hl, hll, hmem, hne]
        · simp [should_include_departure, he, hl, hll, hmem, hne]

/-- C2 counterexample: with filterLines = [""] and direction ALL, the
departure whose line is the (present) empty string satisfies the inclusion
condition of the claim — its line is present (`lineOpt` is `some ""`) and a
member of filterLines, and the direction is ALL — yet
`_should_include_departure` excludes it, because the Python test
`if not line` treats the empty string as absent. -/
theorem c2_counterexample :
    lineOpt depEmptyLine = some "" ∧
    ("" : String) ∈ ([""] : List String) ∧
    shouldIncludeSpec [""] DIRECTION_ALL depEmptyLine ∧
      should_include_departure [""] DIRECTION_ALL depEmptyLine = false := by
  refine ⟨rfl, by decide, ⟨Or.inr ⟨"", rfl, ?_⟩, Or.inl rfl⟩, by decide⟩
  decide

theorem clamp_tdiv_60 (t : Int) :
    (if t ≤ 0 then (0 : Int) else Int.tdiv t 60) = max 0 (Int.fdiv t 60) := by
  rw [Int.fdiv_eq_ediv _ (by norm_num)]
  by_cases h : t ≤ 0
  · rw [if_pos h]
    omega
  · rw [if_neg h, Int.tdiv_eq_ediv (by omega) (by norm_num)]
    omega

/-- C3 counterexample: the first filtered departure has a planned timestamp
(the value 0), so the claim requires the timed headline
"21 -> X in 0 min", but `native_value` takes the `if not
planned_timestamp` branch on the falsy 0 and renders the bare
"21 -> X". -/
theorem c3_counterexample :
    headlineSpec cfgAll snapZeroPlanned 0 = some "21 -> X in 0 min" ∧
    native_value cfgAll (some snapZeroPlanned) 0 = some "21 -> X" ∧
    native_value cfgAll (some snapZeroPlanned) 0 ≠
      headlineSpec cfgAll snapZeroPlanned 0 := by
  exact ⟨by decide, by decide, by decide⟩

/-- C3 (amended): for every snapshot and config the headline is unset when
no departure passes the filter; bare "line -> destination" when the first
filtered departure has no planned timestamp or a planned timestamp equal
to 0 (Python truthiness); otherwise "line -> destination in N min" with
N = floor((planned + delay*60 - now)/60) clamped to 0 when the calculated
departure time is at or before now. -/
theorem c3_headline_characterization (cfg : SensorConfig) (snap : Snapshot)
    (now : Int) :
    (filteredDepartures cfg snap = [] → native_value cfg (some snap) now = none) ∧
    (∀ d rest, filteredDepartures cfg snap = d :: rest →
      ((d.plannedDepartureTimestamp = none ∨ d.plannedDepartureTimestamp = some 0) →
        native_value cfg (some snap) now =
          some (lineOrUnknown d ++ " -> " ++ destOrUnknown d)) ∧
      (∀ p, d.plannedDepartureTimestamp = some p → p ≠ 0 →
        native_value cfg (some snap) now =
          some (lineOrUnknown d ++ " -> " ++ destOrUnknown d ++ " in " ++
            toString (max 0 (Int.fdiv
              (calculate_departure_time p (d.delayMinutes.getD 0) - now) 60)) ++
            " min"))) := by
  refine ⟨fun h => by simp [native_value, h], ?_⟩
  intro d rest h
  constructor
  · intro hp
    rcases hp with hp | hp <;> simp [native_value, h, hp]
  · intro p hp hpne
    simp only [native_value, h, hp, hpne, calculate_time_until_departure,
      if_neg hpne]
    rw [clamp_tdiv_60]
    simp

/-- C3 witness: the amended characterization applied to a concrete snapshot
whose first filtered departure leaves in 300 seconds. -/
theorem c3_witness :
    filteredDepartures cfgAll ⟨[depCentrum], none, [], ""⟩ = [depCentrum] ∧
    native_value cfgAll (some ⟨[depCentrum], none, [], ""⟩) 0 =
      some "21 -> Centrum in 5 min" := by
  have h := (c3_headline_characterization cfgAll ⟨[depCentrum], none, [], ""⟩ 0).2
    depCentrum [] (by decide)
  have h2 := h.2 300 rfl (by decide)
  refine ⟨by decide, ?_⟩
  rw [h2]
  decide

/-- C4 counterexample: at now = 120 the entry for `depPast` has raw seconds
-90, and its minutes field is -1 = trunc(-90/60) (Python `int(x/60)`
truncates toward zero), not floor(-90/60) = -2 as the claim states. -/
theorem c4_counterexample :
    (projectDetail 120 0 depPast).seconds_until_departure = some (-90) ∧
    (projectDetail 120 0 depPast).minutes_until_departure = some (-1) ∧
    Int.fdiv (-90) 60 = -2 ∧
    (projectDetail 120 0 depPast).minutes_until_departure ≠
      some (Int.fdiv (-90) 60) := by
  exact ⟨by decide, by decide, by decide, by decide⟩

/-- C4 (amended): for a departure whose planned timestamp is present and
nonzero and whose calculated departure time is nonzero and in the past,
the detail entry retains the true negative seconds-until value unclamped,
and its minutes field is the quotient by 60 truncated toward zero
(Python `int(x/60)`), not the floor. -/
theorem c4_detail_raw_negative (now tz : Int) (d : RawDeparture) (p : Int)
    (hp : d.plannedDepartureTimestamp = some p) (hpne : p ≠ 0)
    (hcne : calculate_departure_time p (d.delayMinutes.getD 0) ≠ 0)
    (hpast : calculate_departure_time p (d.delayMinutes.getD 0) < now) :
    (projectDetail now tz d).seconds_until_departure =
      some (calculate_departure_time p (d.delayMinutes.getD 0) - now) ∧
    calculate_departure_time p (d.delayMinutes.getD 0) - now < 0 ∧
    (projectDetail now tz d).minutes_until_departure =
      some (Int.tdiv
        (calculate_departure_time p (d.delayMinutes.getD 0) - now) 60) := by
  have ht : calculate_departure_time p (d.delayMinutes.getD 0) - now ≠ 0 := by
    omega
  refine ⟨?_, by omega, ?_⟩ <;>
    simp [projectDetail, hp, hpne, hcne, ht, calculate_time_until_departure]

/-- C4 witness: the amended statement instantiated at `depPast`, now = 120. -/
theorem c4_witness :
    (projectDetail 120 0 depPast).seconds_until_departure = some (-90) ∧
    (projectDetail 120 0 depPast).minutes_until_departure = some (-1) := by
  have h := c4_detail_raw_negative 120 0 depPast 30 rfl (by decide) (by decide)
    (by decide)
  refine ⟨?_, ?_⟩
  · rw [h.1]
    decide
  · rw [h.2.2]
    decide

/-- C9 counterexample: a detail entry whose planned timestamp is defined
(with value 0) but whose calculated timestamp is unset, because the
source computes the calculated time only under the truthiness test
`if planned_timestamp:`. -/
theorem c9_counterexample :
    (projectDetail 100 0 depZeroPlanned).planed_departure.isSome = true ∧
    (projectDetail 100 0 depZeroPlanned).departute_calculated.isSome = false := by
  exact ⟨by decide, by decide⟩

/-- C9 (amended): the calculated timestamp of a detail entry is defined iff the
planned timestamp is defined and nonzero; the calculated formatted time
additionally requires the calculated value itself to be nonzero. -/
theorem c9_calculated_iff_planned_nonzero (now tz : Int) (d : RawDeparture) :
    ((projectDetail now tz d).departute_calculated.isSome = true ↔
      (∃ p, d.plannedDepartureTimestamp = some p ∧ p ≠ 0)) ∧
    ((projectDetail now tz d).calculated_departure_formatted.isSome = true ↔
      (∃ p, d.plannedDepartureTimestamp = some p ∧ p ≠ 0 ∧
        calculate_departure_time p (d.delayMinutes.getD 0) ≠ 0)) := by
  cases hp : d.plannedDepartureTimestamp with
  | none => simp [projectDetail, hp]
  | some p =>
    by_cases hpz : p = 0
    · subst hpz
      simp [projectDetail, hp]
    · by_cases hcz : calculate_departure_time p (d.delayMinutes.getD 0) = 0 <;>
        simp [projectDetail, hp, hpz, hcz]

/-- C5: the details list never exceeds maxDepartures entries and is exactly
the prefix of the filtered departures in their original relative order:
its length is min(maxDepartures, filtered length) and its i-th entry is
the projection of the i-th filtered departure. -/
theorem c5_details_bounded_stable (cfg : SensorConfig) (snap : Snapshot)
    (now tz : Int) :
    (extra_state_attributes cfg snap now tz).departures.length ≤
      cfg.max_departures ∧
    (extra_state_attributes cfg snap now tz).departures.length =
      min cfg.max_departures (filteredDepartures cfg snap).length ∧
    ∀ i (h1 : i < (extra_state_attributes cfg snap now tz).departures.length)
      (h2 : i < (filteredDepartures cfg snap).length),
      (extra_state_attributes cfg snap now tz).departures.get ⟨i, h1⟩ =
        projectDetail now tz ((filteredDepartures cfg snap).get ⟨i, h2⟩) := by
  refine ⟨?_, ?_, ?_⟩
  · simp [extra_state_attributes]
  · simp [extra_state_attributes]
  · intro i h1 h2
    simp only [extra_state_attributes, List.get_eq_getElem, List.getElem_map,
      List.getElem_take]

/-- C5 witness: with maxDepartures = 2 and 5 departures passing the filter,
exactly the first 2 are returned, in order. -/
theorem c5_witness :
    (filteredDepartures cfg2 snap5).length = 5 ∧
    (extra_state_attributes cfg2 snap5 0 0).departures.length = 2 ∧
    (extra_state_attributes cfg2 snap5 0 0).departures.get ⟨0, by decide⟩ =
      projectDetail 0 0 (depN 60) ∧
    (extra_state_attributes cfg2 snap5 0 0).departures.get ⟨1, by decide⟩ =
      projectDetail 0 0 (depN 120) := by
  have h := c5_details_bounded_stable cfg2 snap5 0 0
  refine ⟨by decide, ?_, ?_, ?_⟩
  · rw [h.2.1]
    decide
  · exact (h.2.2 0 (by decide) (by decide)).trans (by decide)
  · exact (h.2.2 1 (by decide) (by decide)).trans (by decide)

/-- C6 counterexample: the requested stop id is "5" but the first (and
only) stop entry has stopID "999"; the claim says metadata must be left
unset on this mismatch, yet `_fetch_stop_info` sets the stop name to
"Foo" — it never compares the stop identifier of the entry with the
requested one. -/
theorem c6_counterexample :
    stMismatch.stop_id = "5" ∧
    firstStop respMismatch = some ⟨some "999", some "Foo", some ["1"]⟩ ∧
    (some "999" : Option String) ≠ some stMismatch.stop_id ∧
    (fetch_stop_info stMismatch respMismatch).stop_name = some "Foo" ∧
    (fetch_stop_info stMismatch respMismatch).stop_name ≠ stMismatch.stop_name := by
  exact ⟨rfl, by decide, by decide, by decide, by decide⟩

/-- C6 (amended): the stop-info fetch never raises (it is a total state
update that swallows network errors), it never touches the requested stop
id or the published snapshot, it leaves the coordinator unchanged unless
the response has status 200, body status "ok" and a non-empty stop list,
and in the accepting case it copies name and lines from the first stop
entry without checking the stop identifier of that entry. -/
theorem c6_stop_info_characterization (st : CoordinatorState)
    (resp : HttpResult StopInfoBody) :
    (stopInfoAccepted resp = false → fetch_stop_info st resp = st) ∧
    (stopInfoAccepted resp = true →
      ∃ e, firstStop resp = some e ∧
        fetch_stop_info st resp =
          { st with
            stop_name := e.stopName
            stopping_lines := e.ezLines.getD [] }) ∧
    (fetch_stop_info st resp).stop_id = st.stop_id ∧
    (fetch_stop_info st resp).data = st.data := by
  cases resp with
  | clientError => simp [fetch_stop_info, stopInfoAccepted]
  | response status body =>
    by_cases hs : status = 200
    · subst hs
      by_cases hb : body.status = some "ok"
      · cases hstops : body.stops with
        | none => simp [fetch_stop_info, stopInfoAccepted, firstStop, hb, hstops]
        | some l =>
          cases l with
          | nil => simp [fetch_stop_info, stopInfoAccepted, firstStop, hb, hstops]
          | cons e rest =>
            refine ⟨?_, ?_, ?_, ?_⟩
            · intro hacc
              simp [stopInfoAccepted, hb, hstops] at hacc
            · intro _
              exact ⟨e, by simp [firstStop, hstops],
                by simp [fetch_stop_info, hb, hstops]⟩
            · simp [fetch_stop_info, hb, hstops]
            · simp [fetch_stop_info, hb, hstops]
      · simp [fetch_stop_info, stopInfoAccepted, hb]
    · simp [fetch_stop_info, stopInfoAccepted, hs]

/-- C6 witness: the amended characterization applied to the concrete
mismatching response (accepted, metadata copied from the first entry) and
to a concrete rejected response (state unchanged). -/
theorem c6_witness :
    fetch_stop_info stMismatch respMismatch =
      { stMismatch with stop_name := some "Foo", stopping_lines := ["1"] } ∧
    fetch_stop_info stMismatch (.response 500 ⟨some "ok", some []⟩) =
      stMismatch := by
  constructor
  · obtain ⟨e, he, hupd⟩ :=
      (c6_stop_info_characterization stMismatch respMismatch).2.1 (by decide)
    have he2 : e = ⟨some "999", some "Foo", some ["1"]⟩ := by
      have := he.symm.trans (by decide : firstStop respMismatch =
        some ⟨some "999", some "Foo", some ["1"]⟩)
      exact Option.some.inj this
    rw [hupd, he2]
    decide
  · exact (c6_stop_info_characterization stMismatch
      (.response 500 ⟨some "ok", some []⟩)).1 (by decide)

theorem decimalDigit_ne_colon (n : Nat) : decimalDigit n ≠ ':' := by
  unfold decimalDigit
  split <;> decide

theorem decimalDigit_ne_plus (n : Nat) : decimalDigit n ≠ '+' := by
  unfold decimalDigit
  split <;> decide

theorem replaceChar_append (c : Char) (r a b : List Char) :
    replaceChar c r (a ++ b) = replaceChar c r a ++ replaceChar c r b := by
  induction a with
  | nil => rfl
  | cons x xs ih =>
    by_cases h : x = c <;> simp [replaceChar, h, ih, List.append_assoc]

/-- C7 (amended): the departures request date string is
`YYYY-MM-DD+HH%3AMM` followed by the UTC offset with no colon, with a
leading plus sign encoded as `%2B`: the separator between date and time
is a literal "+" (not "%20") and the colon of the time is
percent-encoded. -/
theorem c7_formatted_date_shape (dt : LocalDateTime) :
    formatted_date dt =
      pad4 dt.year ++ '-' :: pad2 dt.month ++ '-' :: pad2 dt.day ++
        '+' :: pad2 dt.hour ++ "%3A".data ++ pad2 dt.minute ++
        (if dt.offset.negative then
          '-' :: pad2 dt.offset.hours ++ pad2 dt.offset.minutes
        else "%2B".data ++ pad2 dt.offset.hours ++ pad2 dt.offset.minutes) := by
  cases hneg : dt.offset.negative <;>
    simp [formatted_date, strftimeMain, strftimeZ, hneg, pad2, pad4,
      replaceChar, decimalDigit_ne_colon, decimalDigit_ne_plus]

/-- C7 counterexample: at local time 2026-10-12 14:30 +02:00 the request
date string is "2026-10-12+14%3A30%2B0200" — date and time are separated
by a literal "+" and the time colon is encoded "%3A" — not the claimed
"2026-10-12%2014:30%2B0200". -/
theorem c7_counterexample :
    formatted_date ⟨2026, 10, 12, 14, 30, ⟨false, 2, 0⟩⟩ =
      "2026-10-12+14%3A30%2B0200".data ∧
    formatted_date ⟨2026, 10, 12, 14, 30, ⟨false, 2, 0⟩⟩ ≠
      "2026-10-12%2014:30%2B0200".data := by
  exact ⟨by decide, by decide⟩

theorem lineOrUnknown_of_lineOpt_none (d : RawDeparture)
    (h : lineOpt d = none) : lineOrUnknown d = "Unknown" := by
  cases htrip : d.timeTableTrip with
  | none => simp [lineOrUnknown, htrip]
  | some t =>
    cases httl : t.timeTableLine with
    | none => simp [lineOrUnknown, htrip, httl]
    | some l =>
      have hl : l.line = none := by
        simpa [lineOpt, htrip, httl] using h
      simp [lineOrUnknown, htrip, httl, hl]

/-- C10: the projections are total over arbitrary departure records: with
the trip object missing, line and destination render as "Unknown" and
direction is unset; a missing line also renders "Unknown" and never
matches a non-empty filter; a missing destination renders "Unknown"; a
missing platform stays unset; and the headline for such a departure is
"Unknown -> Unknown". -/
theorem c10_projection_totality (fl : List String) (dir : String)
    (now tz : Int) (d : RawDeparture) :
    (d.timeTableTrip = none →
      (projectDetail now tz d).line = "Unknown" ∧
      (projectDetail now tz d).destination = "Unknown" ∧
      (projectDetail now tz d).direction = none) ∧
    (lineOpt d = none →
      (projectDetail now tz d).line = "Unknown" ∧
      (fl ≠ [] → should_include_departure fl dir d = false)) ∧
    (∀ t, d.timeTableTrip = some t → t.destinationStopName = none →
      (projectDetail now tz d).destination = "Unknown") ∧
    (d.platformNumber = none → (projectDetail now tz d).platform = none) ∧
    (d.timeTableTrip = none → d.plannedDepartureTimestamp = none →
      ∀ rest sn sl lu m,
        native_value ⟨[], DIRECTION_ALL, m⟩ (some ⟨d :: rest, sn, sl, lu⟩) now =
          some "Unknown -> Unknown") := by
  refine ⟨?_, ?_, ?_, ?_, ?_⟩
  · intro h
    simp [projectDetail, lineOrUnknown, destOrUnknown, tagOpt, h]
  · intro h
    refine ⟨lineOrUnknown_of_lineOpt_none d h, ?_⟩
    intro hfl
    have hne : fl.isEmpty = false := by
      cases fl with
      | nil => exact absurd rfl hfl
      | cons a as => rfl
    simp [should_include_departure, hne, h]
  · intro t ht hd
    simp [projectDetail, destOrUnknown, ht, hd]
  · intro h
    simp [projectDetail, h]
  · intro htrip hplan rest sn sl lu m
    have hinc : should_include_departure [] DIRECTION_ALL d = true := by
      simp [should_include_departure, direction_filter_check]
    simp [native_value, filteredDepartures, hinc, htrip, hplan, lineOrUnknown,
      destOrUnknown]

/-- C10 witness: the totality statement instantiated at the all-absent
departure record against the filter ["21"]. -/
theorem c10_witness :
    (projectDetail 0 0 ⟨none, none, none, none⟩).line = "Unknown" ∧
    (projectDetail 0 0 ⟨none, none, none, none⟩).destination = "Unknown" ∧
    (projectDetail 0 0 ⟨none, none, none, none⟩).direction = none ∧
    (projectDetail 0 0 ⟨none, none, none, none⟩).platform = none ∧
    should_include_departure ["21"] DIRECTION_ALL ⟨none, none, none, none⟩ =
      false ∧
    native_value ⟨[], DIRECTION_ALL, 10⟩
      (some ⟨[⟨none, none, none, none⟩], none, [], ""⟩) 0 =
        some "Unknown -> Unknown" := by
  have h := c10_projection_totality ["21"] DIRECTION_ALL 0 0
    ⟨none, none, none, none⟩
  obtain ⟨h1, h2, h3, h4, h5⟩ := h
  have ha := h1 rfl
  refine ⟨ha.1, ha.2.1, ha.2.2, h4 rfl, (h2 rfl).2 (by decide),
    h5 rfl rfl [] none [] "" 10⟩

theorem fetch_stop_info_data (st : CoordinatorState)
    (resp : HttpResult StopInfoBody) :
    (fetch_stop_info st resp).data = st.data := by
  cases resp with
  | clientError => rfl
  | response status body =>
    by_cases hs : status ≠ 200
    · simp [fetch_stop_info, hs]
    · by_cases hb : body.status ≠ some "ok"
      · simp [fetch_stop_info, hs, hb]
      · cases hstops : body.stops with
        | none => simp [fetch_stop_info, hs, hb, hstops]
        | some l => cases l <;> simp [fetch_stop_info, hs, hb, hstops]

/-- C1: a departure-fetch response with transport success (status 200) whose
body lacks the `departures` field makes the departures fetch fail with the
propagating malformed-response error (the statement `return {[]}` in the
source raises at runtime) — it is never an `.ok` result, in particular not an empty list —
and after the failed cycle the previously published snapshot
(`coordinator.data`: departures, stop name, stopping lines, last update)
is retained and read unchanged by the sensor. -/
theorem c1_malformed_fetch_fails_snapshot_retained (st : CoordinatorState)
    (stopResp : HttpResult StopInfoBody) (body : DeparturesBody)
    (now_str : String) (h : body.departures = none) :
    async_update_data st stopResp (.response 200 body) now_str =
      .error .malformedResponse ∧
    (∀ result, async_update_data st stopResp (.response 200 body) now_str ≠
      .ok result) ∧
    (coordinator_refresh st stopResp (.response 200 body) now_str).data =
      st.data ∧
    (∀ cfg now,
      native_value cfg
        (coordinator_refresh st stopResp (.response 200 body) now_str).data
        now = native_value cfg st.data now) := by
  have hf : fetch_departures
      (if st.stop_name = none then fetch_stop_info st stopResp else st)
      (.response 200 body) now_str = .error .malformedResponse := by
    simp [fetch_departures, h]
  have hasync : async_update_data st stopResp (.response 200 body) now_str =
      .error .malformedResponse := by
    simp only [async_update_data]
    rw [hf]
  have hdata : (coordinator_refresh st stopResp (.response 200 body)
      now_str).data = st.data := by
    unfold coordinator_refresh
    rw [hasync]
    by_cases hsn : st.stop_name = none
    · simp [hsn, fetch_stop_info_data]
    · simp [hsn]
  refine ⟨hasync, ?_, hdata, ?_⟩
  · intro result hres
    rw [hasync] at hres
    exact Except.noConfusion hres
  · intro cfg now
    rw [hdata]

/-- C1 witness: a concrete 200 response with no `departures` field fails the
update as a malformed response, and the previously published snapshot
stays in place, with the headline readers see unchanged. -/
theorem c1_witness :
    async_update_data stPrev .clientError (.response 200 ⟨none⟩) "t" =
      .error .malformedResponse ∧
    (coordinator_refresh stPrev .clientError (.response 200 ⟨none⟩) "t").data =
      some snapPrev ∧
    native_value cfgAll
      (coordinator_refresh stPrev .clientError (.response 200 ⟨none⟩) "t").data
      0 = some "21 -> Centrum in 5 min" := by
  have h := c1_malformed_fetch_fails_snapshot_retained stPrev .clientError
    ⟨none⟩ "t" rfl
  refine ⟨h.1, ?_, ?_⟩
  · rw [h.2.2.1]
    rfl
  · rw [h.2.2.2 cfgAll 0]
    decide
